import Mathlib

/-!
Verification of the safety / action-tracking core of the LinkedIn Copilot
repository: the rate limiter (src/safety/rate_limiter.py), the durable
action ledger (src/safety/action_tracker.py), the safety logger
(src/safety/logger.py) and the orchestrator's authorization flows
(src/main.py, `send_recruiter_message` and `apply_to_job`).

Time is modelled as integer seconds.  `datetime.now()` values become
explicit `now : ℤ` parameters; `time.sleep` becomes an explicit sleep
duration returned to the caller; sqlite tables become Lean lists with the
uniqueness constraint expressed by the insert-or-ignore operation.
-/

namespace Copilot

/-- Model of the `RateLimiter` class state (src/safety/rate_limiter.py,
lines 15-22): configuration plus the rolling window of action timestamps
and the optional last-action timestamp. -/
structure RateLimiter where
  max_actions_per_day : Nat
  min_delay : ℤ
  max_delay : ℤ
  daily_actions : List ℤ
  last_action_time : Option ℤ
deriving Repr, DecidableEq

/-- Result of one call to `can_perform_action`: the returned boolean, the
duration the call slept via `time.sleep` (0 when it did not sleep), and
the limiter state after the call (the call reassigns `daily_actions`). -/
structure RateCheck where
  allowed : Bool
  sleepTime : ℤ
  state : RateLimiter
deriving Repr, DecidableEq

/-- Model of the pruning comprehension
`[a for a in self.daily_actions if (now - a).days < 1]` used at
rate_limiter.py lines 29-32 and 68-71.  For a timedelta, `.days < 1` holds
exactly when the delta is below 24 hours (86400 s), `.days` being a floor;
entries dated in the future are kept. -/
def pruneWindow (now : ℤ) (actions : List ℤ) : List ℤ :=
  actions.filter (fun a => now - a < 86400)

/-- Model of `RateLimiter.can_perform_action` (rate_limiter.py lines
24-49): prune the window, reassign it, refuse when the pruned count has
reached `max_actions_per_day`, otherwise sleep out the remainder of
`min_delay` since `last_action_time` (when one exists) and allow. -/
def RateLimiter.can_perform_action (rl : RateLimiter) (now : ℤ) : RateCheck :=
  let pruned := pruneWindow now rl.daily_actions
  let rl' := { rl with daily_actions := pruned }
  if rl.max_actions_per_day ≤ pruned.length then
    ⟨false, 0, rl'⟩
  else
    match rl.last_action_time with
    | none => ⟨true, 0, rl'⟩
    | some last =>
      if now - last < rl.min_delay then
        ⟨true, rl.min_delay - (now - last), rl'⟩
      else
        ⟨true, 0, rl'⟩

/-- Model of `RateLimiter.record_action` (rate_limiter.py lines 51-59):
append `now` to the window and set `last_action_time := now`.  The
`jitter` argument models the value of `self._get_random_delay()` computed
at line 58; the source only logs it, so the resulting state does not
depend on it.  The method contains no `time.sleep` call. -/
def RateLimiter.record_action (rl : RateLimiter) (now : ℤ) (jitter : ℤ) : RateLimiter :=
  let _ := jitter
  { rl with daily_actions := rl.daily_actions ++ [now], last_action_time := some now }

/-- Model of the dictionary returned by `RateLimiter.get_daily_stats`
(rate_limiter.py lines 65-78). -/
structure DailyStats where
  actions_today : Nat
  max_actions : Nat
  remaining : Int
  last_action : Option ℤ
deriving Repr, DecidableEq

/-- Model of `RateLimiter.get_daily_stats` (rate_limiter.py lines 65-78):
filters the window with the same 24-hour predicate (without reassigning
state) and reports counts. -/
def RateLimiter.get_daily_stats (rl : RateLimiter) (now : ℤ) : DailyStats :=
  let today := pruneWindow now rl.daily_actions
  ⟨today.length, rl.max_actions_per_day,
    (rl.max_actions_per_day : Int) - (today.length : Int), rl.last_action_time⟩

/-- Row of the `contacted_recruiters` table (action_tracker.py lines
26-35); `recruiter_url` carries a UNIQUE constraint. -/
structure ContactRecord where
  recruiter_url : String
  recruiter_name : String
  company : String
  contacted_at : ℤ
  message_sent : Bool
deriving Repr, DecidableEq

/-- Row of the `applied_jobs` table (action_tracker.py lines 38-47);
`job_url` carries a UNIQUE constraint. -/
structure ApplicationRecord where
  job_url : String
  job_title : String
  company : String
  applied_at : ℤ
  status : String
deriving Repr, DecidableEq

/-- Row of the `action_log` table (action_tracker.py lines 50-60); no
uniqueness constraint. -/
structure GenericLogEntry where
  action_type : String
  target_url : String
  target_name : String
  timestamp : ℤ
  status : String
  details : Option String
deriving Repr, DecidableEq

/-- Model of the sqlite database created by `ActionTracker._init_db`
(action_tracker.py lines 20-63): the three tables in insertion order. -/
structure ActionDB where
  contacted_recruiters : List ContactRecord
  applied_jobs : List ApplicationRecord
  action_log : List GenericLogEntry
deriving Repr, DecidableEq

/-- Database right after `_init_db` on a fresh path: three empty tables. -/
def ActionDB.empty : ActionDB := ⟨[], [], []⟩

/-- Model of `ActionTracker.is_recruiter_contacted` (action_tracker.py
lines 65-78): `SELECT COUNT(*) ... WHERE recruiter_url = ?` compared
against zero. -/
def is_recruiter_contacted (db : ActionDB) (recruiter_url : String) : Bool :=
  0 < (db.contacted_recruiters.filter (fun c => c.recruiter_url = recruiter_url)).length

/-- Model of `ActionTracker.is_job_applied` (action_tracker.py lines
100-113). -/
def is_job_applied (db : ActionDB) (job_url : String) : Bool :=
  0 < (db.applied_jobs.filter (fun a => a.job_url = job_url)).length

/-- Model of `INSERT OR IGNORE` into a table whose key column is UNIQUE:
when a row with the same key exists the statement is a no-op, otherwise
the row is appended. -/
def insertOrIgnore (key : α → String) (table : List α) (row : α) : List α :=
  if table.any (fun r => key r = key row) then table else table ++ [row]

/-- Model of `ActionTracker.record_recruiter_contact` (action_tracker.py
lines 80-98): `INSERT OR IGNORE` of the row built from the arguments and
`datetime.now()` (passed here as `now`). -/
def record_recruiter_contact (db : ActionDB) (recruiter_url recruiter_name company : String)
    (now : ℤ) (message_sent : Bool) : ActionDB :=
  let row : ContactRecord := ⟨recruiter_url, recruiter_name, company, now, message_sent⟩
  { db with contacted_recruiters :=
      insertOrIgnore ContactRecord.recruiter_url db.contacted_recruiters row }

/-- Model of `ActionTracker.record_job_application` (action_tracker.py
lines 115-133). -/
def record_job_application (db : ActionDB) (job_url job_title company : String)
    (now : ℤ) (status : String) : ActionDB :=
  let row : ApplicationRecord := ⟨job_url, job_title, company, now, status⟩
  { db with applied_jobs :=
      insertOrIgnore ApplicationRecord.job_url db.applied_jobs row }

/-- Model of `ActionTracker.log_action` (action_tracker.py lines
135-152): plain append into `action_log`. -/
def log_action (db : ActionDB) (action_type target_url target_name : String)
    (now : ℤ) (status : String) (details : Option String) : ActionDB :=
  { db with action_log :=
      db.action_log ++ [⟨action_type, target_url, target_name, now, status, details⟩] }

/-! ### Storage-failure variants

The tracker methods talk to sqlite, which can raise at two points: when
opening the connection (`sqlite3.connect` / `conn.cursor()`) and when
running the statement (`cursor.execute` / `conn.commit`).  A call is
modelled with two extra arguments, `connectError` and `execError`:
`some e` means the corresponding sqlite phase raised exception `e`.
The read-side methods `is_recruiter_contacted` / `is_job_applied`
(action_tracker.py lines 65-78 and 100-113) contain no `try/except`, so
an exception from either phase propagates to the caller.  In the
write-side methods `record_recruiter_contact`, `record_job_application`
and `log_action` the connection is opened before the `try` (lines 83-84,
118-119, 138-139), so a connection-time exception propagates, while the
statement runs inside a `try/except Exception` that only logs (lines
86-98, 121-133, 141-152), so a statement-time exception is swallowed
and the method returns normally with the database unchanged (the failed
statement was never committed). -/

/-- Model of `is_recruiter_contacted` with a fallible store: no
`try/except` anywhere in the method, so an exception from connecting or
from the query escapes as `.error`. -/
def is_recruiter_contactedE (db : ActionDB) (recruiter_url : String)
    (connectError execError : Option String) : Except String Bool :=
  match connectError with
  | some e => .error e
  | none =>
    match execError with
    | some e => .error e
    | none => .ok (is_recruiter_contacted db recruiter_url)

/-- Model of `is_job_applied` with a fallible store: no `try/except`
anywhere in the method, so an exception from connecting or from the
query escapes as `.error`. -/
def is_job_appliedE (db : ActionDB) (job_url : String)
    (connectError execError : Option String) : Except String Bool :=
  match connectError with
  | some e => .error e
  | none =>
    match execError with
    | some e => .error e
    | none => .ok (is_job_applied db job_url)

/-- Model of `record_recruiter_contact` with a fallible store:
`sqlite3.connect` and `conn.cursor()` run before the `try`
(action_tracker.py lines 83-84), so a connection-time exception
propagates; an exception from the guarded `INSERT`/`commit` is caught by
the `except` block (lines 95-96), logged, and the method returns
normally with the database unchanged. -/
def record_recruiter_contactE (db : ActionDB) (recruiter_url recruiter_name company : String)
    (now : ℤ) (message_sent : Bool)
    (connectError execError : Option String) : Except String ActionDB :=
  match connectError with
  | some e => .error e
  | none =>
    match execError with
    | some _ => .ok db
    | none => .ok (record_recruiter_contact db recruiter_url recruiter_name company now message_sent)

/-- Model of `record_job_application` with a fallible store: the
connection is opened before the `try` (action_tracker.py lines 118-119),
so a connection-time exception propagates; an exception from the guarded
`INSERT`/`commit` is caught (lines 130-131) and the method returns
normally with the database unchanged. -/
def record_job_applicationE (db : ActionDB) (job_url job_title company : String)
    (now : ℤ) (status : String)
    (connectError execError : Option String) : Except String ActionDB :=
  match connectError with
  | some e => .error e
  | none =>
    match execError with
    | some _ => .ok db
    | none => .ok (record_job_application db job_url job_title company now status)

/-- Model of `log_action` with a fallible store: the connection is
opened before the `try` (action_tracker.py lines 138-139), so a
connection-time exception propagates; an exception from the guarded
`INSERT`/`commit` is caught (lines 149-150) and the method returns
normally with the database unchanged. -/
def log_actionE (db : ActionDB) (action_type target_url target_name : String)
    (now : ℤ) (status : String) (details : Option String)
    (connectError execError : Option String) : Except String ActionDB :=
  match connectError with
  | some e => .error e
  | none =>
    match execError with
    | some _ => .ok db
    | none => .ok (log_action db action_type target_url target_name now status details)

/-- Calendar date of a timestamp under local wall-clock date truncation:
the model of sqlite's `DATE(ts)` / Python's `strftime` on whole days,
with time in seconds and a day of 86400 seconds. -/
def dateOf (t : ℤ) : Int := Int.fdiv t 86400

/-- Model of the dictionary returned by `ActionTracker.get_daily_summary`
(action_tracker.py lines 190-195). -/
structure DailySummary where
  date : Int
  recruiters_contacted : Nat
  jobs_applied : Nat
  recent_actions : List GenericLogEntry
deriving Repr, DecidableEq

/-- Newest-first comparison used to model `ORDER BY timestamp DESC`. -/
def newestFirst (a b : GenericLogEntry) : Prop := b.timestamp ≤ a.timestamp

instance : DecidableRel newestFirst := fun a b => by
  unfold newestFirst; infer_instance

/-- Model of `ActionTracker.get_daily_summary` (action_tracker.py lines
154-195): count the rows of each table whose `DATE(timestamp)` equals the
given date, and return the generic log entries of that date ordered by
timestamp descending, limited to 50. -/
def get_daily_summary (db : ActionDB) (date : Int) : DailySummary :=
  let recruiters := (db.contacted_recruiters.filter (fun c => dateOf c.contacted_at = date)).length
  let jobs := (db.applied_jobs.filter (fun a => dateOf a.applied_at = date)).length
  let todays := db.action_log.filter (fun e => dateOf e.timestamp = date)
  ⟨date, recruiters, jobs, (List.insertionSort newestFirst todays).take 50⟩

/-- Entry appended by `SafetyLogger.log_action` (logger.py lines 62-83)
to the detailed action log: action type, outcome status and a detail
payload. -/
structure SafetyLogEntry where
  action_type : String
  status : String
  details : String
deriving Repr, DecidableEq

/-- Outcome of the externally supplied side effect
(`MessageSender.send_message` / `JobApplicator.apply_to_job`): it returns
`True`, returns `False`, or raises. -/
inductive ActionOutcome
  | success
  | failure
  | raised (msg : String)
deriving Repr, DecidableEq

/-- State owned by the `LinkedInCopilot` orchestrator (main.py lines
29-32) that the authorization flows read and write: the rate limiter, the
action-tracker database and the safety logger's appended entries. -/
structure CopilotState where
  rl : RateLimiter
  db : ActionDB
  safetyLog : List SafetyLogEntry
deriving Repr, DecidableEq

/-- Instrumentation of one authorization-flow run, recording which steps
executed: whether `can_perform_action` was invoked and what it returned
and slept, whether the ledger dedup check ran and hit, and whether the
external action callable was invoked. -/
structure FlowTrace where
  rateLimiterInvoked : Bool
  rateAllowed : Bool
  sleepTime : ℤ
  dedupChecked : Bool
  dedupHit : Bool
  externalInvoked : Bool
deriving Repr, DecidableEq

/-- Return value, final state and trace of one authorization-flow run. -/
structure FlowResult where
  result : Bool
  state : CopilotState
  trace : FlowTrace
deriving Repr, DecidableEq

/-- Model of `LinkedInCopilot.apply_to_job` (main.py lines 231-269), in
source order: (1) `can_perform_action` (which may sleep) and return False
when it refuses; (2) the `is_job_applied` dedup check and return False on
a hit; (3) the external action; on `True` record the application with
status `'submitted'`, call `record_action` and append a success safety-log
entry; on `False` return False with no writes; on an exception the
`except` block appends an error safety-log entry (via
`SafetyLogger.log_error`, logger.py lines 85-94) and returns False. -/
def apply_to_job (c : CopilotState) (now : ℤ) (job_url job_title company : String)
    (jitter : ℤ) (outcome : ActionOutcome) : FlowResult :=
  let check := c.rl.can_perform_action now
  let c₁ : CopilotState := { c with rl := check.state }
  if check.allowed = false then
    ⟨false, c₁, ⟨true, false, check.sleepTime, false, false, false⟩⟩
  else if is_job_applied c.db job_url then
    ⟨false, c₁, ⟨true, true, check.sleepTime, true, true, false⟩⟩
  else
    match outcome with
    | .success =>
      let db' := record_job_application c.db job_url job_title company now "submitted"
      let rl' := check.state.record_action now jitter
      let log' := c.safetyLog ++ [⟨"apply_job", "success", job_url⟩]
      ⟨true, ⟨rl', db', log'⟩, ⟨true, true, check.sleepTime, true, false, true⟩⟩
    | .failure =>
      ⟨false, c₁, ⟨true, true, check.sleepTime, true, false, true⟩⟩
    | .raised msg =>
      let log' := c.safetyLog ++ [⟨"error", "error", msg⟩]
      ⟨false, ⟨check.state, c.db, log'⟩, ⟨true, true, check.sleepTime, true, false, true⟩⟩

/-- Model of `LinkedInCopilot.send_recruiter_message` (main.py lines
140-179), in source order: (1) `can_perform_action`; (2) the
`is_recruiter_contacted` dedup check; (3) the external send; on `True`
record the contact with `message_sent=True`, call `record_action` and
append a success safety-log entry; on `False` return False with no
writes; on an exception append an error safety-log entry and return
False. -/
def send_recruiter_message (c : CopilotState) (now : ℤ)
    (recruiter_url recruiter_name company : String)
    (jitter : ℤ) (outcome : ActionOutcome) : FlowResult :=
  let check := c.rl.can_perform_action now
  let c₁ : CopilotState := { c with rl := check.state }
  if check.allowed = false then
    ⟨false, c₁, ⟨true, false, check.sleepTime, false, false, false⟩⟩
  else if is_recruiter_contacted c.db recruiter_url then
    ⟨false, c₁, ⟨true, true, check.sleepTime, true, true, false⟩⟩
  else
    match outcome with
    | .success =>
      let db' := record_recruiter_contact c.db recruiter_url recruiter_name company now true
      let rl' := check.state.record_action now jitter
      let log' := c.safetyLog ++ [⟨"send_message", "success", recruiter_url⟩]
      ⟨true, ⟨rl', db', log'⟩, ⟨true, true, check.sleepTime, true, false, true⟩⟩
    | .failure =>
      ⟨false, c₁, ⟨true, true, check.sleepTime, true, false, true⟩⟩
    | .raised msg =>
      let log' := c.safetyLog ++ [⟨"error", "error", msg⟩]
      ⟨false, ⟨check.state, c.db, log'⟩, ⟨true, true, check.sleepTime, true, false, true⟩⟩

/-! ### Concrete states used in scenario claims and counterexamples -/

instance : IsTotal GenericLogEntry newestFirst :=
  ⟨fun a b => le_total b.timestamp a.timestamp⟩

instance : IsTrans GenericLogEntry newestFirst :=
  ⟨fun _ _ _ h₁ h₂ => le_trans h₂ h₁⟩

/-- An application row already present in the ledger, used to exercise
the duplicate-target paths. -/
def jobRow : ApplicationRecord := ⟨"jobX", "Engineer", "Acme", 0, "submitted"⟩

/-- A contact row already present in the ledger. -/
def recruiterRow : ContactRecord := ⟨"recX", "Dana", "Acme", 0, true⟩

/-- A copilot whose ledger already holds `recruiterRow` and `jobRow` and
whose rate limiter has `last_action_time = 0` with the default
configuration (20 per day, 300-900 s delays). -/
def seededState : CopilotState := ⟨⟨20, 300, 900, [], some 0⟩, ⟨[recruiterRow], [jobRow], []⟩, []⟩

/-- A copilot with an empty ledger and an idle rate limiter under the
default configuration. -/
def freshState : CopilotState := ⟨⟨20, 300, 900, [], none⟩, ActionDB.empty, []⟩

/-- Start state of the duplicate-target scenario: empty ledger,
`min_delay = 0` so the second run does not sleep. -/
def c1Start : CopilotState := ⟨⟨20, 0, 900, [], none⟩, ActionDB.empty, []⟩

/-- First run of the duplicate-target scenario: unseen URL, the external
action succeeds. -/
def c1Run1 : FlowResult := apply_to_job c1Start 0 "jobA" "Engineer" "Acme" 0 .success

/-- Second run of the duplicate-target scenario: the same URL again. -/
def c1Run2 : FlowResult := apply_to_job c1Run1.state 10 "jobA" "Engineer" "Acme" 0 .success

/-- Start state of the daily-ceiling scenario: `max_actions_per_day = 2`,
`min_delay = 0`, empty ledger. -/
def c4Start : CopilotState := ⟨⟨2, 0, 0, [], none⟩, ActionDB.empty, []⟩

/-- Ceiling scenario, call 1: first unseen target, success. -/
def c4Run1 : FlowResult := apply_to_job c4Start 0 "jobA" "Engineer" "Acme" 0 .success

/-- Ceiling scenario, call 2: second unseen target, success. -/
def c4Run2 : FlowResult := apply_to_job c4Run1.state 10 "jobB" "Engineer" "Blox" 0 .success

/-- Ceiling scenario, call 3: third unseen target, refused by the rate
limiter. -/
def c4Run3 : FlowResult := apply_to_job c4Run2.state 20 "jobC" "Engineer" "Corp" 0 .success

/-- A generic log entry dated inside day 0. -/
def logEntryA : GenericLogEntry := ⟨"send_message", "recX", "Dana", 5, "success", none⟩

/-- A later generic log entry dated inside day 0. -/
def logEntryB : GenericLogEntry := ⟨"apply_job", "jobX", "Engineer", 9, "error", some "boom"⟩

/-- A database whose action log holds the two entries above. -/
def logDb : ActionDB := ⟨[], [], [logEntryA, logEntryB]⟩

/-! ### Helper lemmas -/

theorem insertOrIgnore_of_absent {α : Type} (key : α → String) (table : List α) (row : α)
    (h : table.any (fun r => key r = key row) = false) :
    insertOrIgnore key table row = table ++ [row] := by
  unfold insertOrIgnore
  rw [h]
  simp

theorem insertOrIgnore_of_present {α : Type} (key : α → String) (table : List α) (row : α)
    (h : table.any (fun r => key r = key row) = true) :
    insertOrIgnore key table row = table := by
  unfold insertOrIgnore
  rw [h]
  simp

theorem contacted_filter_eq_nil {db : ActionDB} {url : String}
    (h : is_recruiter_contacted db url = false) :
    db.contacted_recruiters.filter (fun c => c.recruiter_url = url) = [] := by
  unfold is_recruiter_contacted at h
  simp only [decide_eq_false_iff_not, not_lt, Nat.le_zero, List.length_eq_zero] at h
  exact h

theorem applied_filter_eq_nil {db : ActionDB} {url : String}
    (h : is_job_applied db url = false) :
    db.applied_jobs.filter (fun a => a.job_url = url) = [] := by
  unfold is_job_applied at h
  simp only [decide_eq_false_iff_not, not_lt, Nat.le_zero, List.length_eq_zero] at h
  exact h

theorem contacted_any_eq_false {db : ActionDB} {url : String}
    (h : is_recruiter_contacted db url = false) :
    db.contacted_recruiters.any (fun r => r.recruiter_url = url) = false := by
  have h' := contacted_filter_eq_nil h
  rw [List.filter_eq_nil_iff] at h'
  simp only [List.any_eq_false, decide_eq_true_eq]
  intro r hr
  have := h' r hr
  simpa using this

theorem applied_any_eq_false {db : ActionDB} {url : String}
    (h : is_job_applied db url = false) :
    db.applied_jobs.any (fun r => r.job_url = url) = false := by
  have h' := applied_filter_eq_nil h
  rw [List.filter_eq_nil_iff] at h'
  simp only [List.any_eq_false, decide_eq_true_eq]
  intro r hr
  have := h' r hr
  simpa using this

theorem is_recruiter_contacted_eq_any (db : ActionDB) (url : String) :
    is_recruiter_contacted db url
      = db.contacted_recruiters.any (fun r => r.recruiter_url = url) := by
  unfold is_recruiter_contacted
  rw [Bool.eq_iff_iff]
  simp [List.length_pos_iff_exists_mem, List.mem_filter, List.any_eq_true]

theorem is_job_applied_eq_any (db : ActionDB) (url : String) :
    is_job_applied db url = db.applied_jobs.any (fun r => r.job_url = url) := by
  unfold is_job_applied
  rw [Bool.eq_iff_iff]
  simp [List.length_pos_iff_exists_mem, List.mem_filter, List.any_eq_true]

theorem record_contact_of_absent {db : ActionDB} {url : String}
    (h : is_recruiter_contacted db url = false) (n c : String) (t : ℤ) (m : Bool) :
    (record_recruiter_contact db url n c t m).contacted_recruiters
      = db.contacted_recruiters ++ [ContactRecord.mk url n c t m] := by
  rw [is_recruiter_contacted_eq_any] at h
  simp only [record_recruiter_contact]
  rw [insertOrIgnore_of_absent]
  simpa using h

theorem record_application_of_absent {db : ActionDB} {url : String}
    (h : is_job_applied db url = false) (ti c : String) (t : ℤ) (st : String) :
    (record_job_application db url ti c t st).applied_jobs
      = db.applied_jobs ++ [ApplicationRecord.mk url ti c t st] := by
  rw [is_job_applied_eq_any] at h
  simp only [record_job_application]
  rw [insertOrIgnore_of_absent]
  simpa using h

theorem is_recruiter_contacted_record_self (db : ActionDB) (url n c : String)
    (t : ℤ) (m : Bool) :
    is_recruiter_contacted (record_recruiter_contact db url n c t m) url = true := by
  rw [is_recruiter_contacted_eq_any]
  simp only [record_recruiter_contact, insertOrIgnore]
  rcases h : db.contacted_recruiters.any (fun r => r.recruiter_url = url) with _ | _
  · simp only [List.any_eq_false] at h
    simp [h]
  · simp [h]

theorem is_job_applied_record_self (db : ActionDB) (url ti c : String) (t : ℤ) (st : String) :
    is_job_applied (record_job_application db url ti c t st) url = true := by
  rw [is_job_applied_eq_any]
  simp only [record_job_application, insertOrIgnore]
  rcases h : db.applied_jobs.any (fun r => r.job_url = url) with _ | _
  · simp only [List.any_eq_false] at h
    simp [h]
  · simp [h]

theorem record_contact_of_present {db : ActionDB} {url : String}
    (h : is_recruiter_contacted db url = true) (n c : String) (t : ℤ) (m : Bool) :
    record_recruiter_contact db url n c t m = db := by
  rw [is_recruiter_contacted_eq_any] at h
  simp only [record_recruiter_contact]
  rw [insertOrIgnore_of_present]
  · simpa using h

theorem record_application_of_present {db : ActionDB} {url : String}
    (h : is_job_applied db url = true) (ti c : String) (t : ℤ) (st : String) :
    record_job_application db url ti c t st = db := by
  rw [is_job_applied_eq_any] at h
  simp only [record_job_application]
  rw [insertOrIgnore_of_present]
  · simpa using h

theorem can_perform_action_state (rl : RateLimiter) (now : ℤ) :
    (rl.can_perform_action now).state
      = { rl with daily_actions := pruneWindow now rl.daily_actions } := by
  unfold RateLimiter.can_perform_action
  by_cases h : rl.max_actions_per_day ≤ (pruneWindow now rl.daily_actions).length
  · simp [h]
  · cases hl : rl.last_action_time with
    | none => simp [h, hl]
    | some last => by_cases h2 : now - last < rl.min_delay <;> simp [h, hl, h2]

theorem can_perform_action_allowed (rl : RateLimiter) (now : ℤ) :
    (rl.can_perform_action now).allowed
      = decide ((pruneWindow now rl.daily_actions).length < rl.max_actions_per_day) := by
  unfold RateLimiter.can_perform_action
  by_cases h : rl.max_actions_per_day ≤ (pruneWindow now rl.daily_actions).length
  · simp [h, Nat.not_lt.mpr h]
  · have := Nat.lt_of_not_le h
    cases hl : rl.last_action_time with
    | none => simp [h, hl, this]
    | some last => by_cases h2 : now - last < rl.min_delay <;> simp [h, hl, h2, this]

theorem can_perform_action_sleepTime (rl : RateLimiter) (now : ℤ) :
    (rl.can_perform_action now).sleepTime
      = if rl.max_actions_per_day ≤ (pruneWindow now rl.daily_actions).length then 0
        else match rl.last_action_time with
          | none => 0
          | some last =>
            if now - last < rl.min_delay then rl.min_delay - (now - last) else 0 := by
  unfold RateLimiter.can_perform_action
  by_cases h : rl.max_actions_per_day ≤ (pruneWindow now rl.daily_actions).length
  · simp [h]
  · cases hl : rl.last_action_time with
    | none => simp [h, hl]
    | some last => by_cases h2 : now - last < rl.min_delay <;> simp [h, hl, h2]

/-! ### Claims -/

/-- C1: Dedup gate.  For every target whose ledger check
(`is_job_applied` / `is_recruiter_contacted`) is true, the authorization
flow (`apply_to_job` / `send_recruiter_message`) never invokes the
external action callable, returns False and leaves the ledger unchanged;
and running the flow twice for the same job URL (first run succeeding
with status `'submitted'`) short-circuits the second run before the
external action, with the daily summary counting exactly one
application. -/
theorem claim_C1_dedup_gate :
    (∀ (c : CopilotState) (now : ℤ) (url ti co : String) (j : ℤ) (o : ActionOutcome),
      is_job_applied c.db url = true →
        ((apply_to_job c now url ti co j o).trace.externalInvoked = false
      ∧ (apply_to_job c now url ti co j o).result = false
      ∧ (apply_to_job c now url ti co j o).state.db = c.db))
  ∧ (∀ (c : CopilotState) (now : ℤ) (url n co : String) (j : ℤ) (o : ActionOutcome),
      is_recruiter_contacted c.db url = true →
        ((send_recruiter_message c now url n co j o).trace.externalInvoked = false
      ∧ (send_recruiter_message c now url n co j o).result = false
      ∧ (send_recruiter_message c now url n co j o).state.db = c.db))
  ∧ c1Run1.result = true
  ∧ is_job_applied c1Run1.state.db "jobA" = true
  ∧ c1Run2.trace.externalInvoked = false
  ∧ c1Run2.result = false
  ∧ (get_daily_summary c1Run2.state.db (dateOf 0)).jobs_applied = 1 := by
  refine ⟨?_, ?_, by decide, by decide, by decide, by decide, by decide⟩
  · intro c now url ti co j o h
    unfold apply_to_job
    by_cases hr : (c.rl.can_perform_action now).allowed = false
    · simp [hr]
    · simp [hr, h]
  · intro c now url n co j o h
    unfold send_recruiter_message
    by_cases hr : (c.rl.can_perform_action now).allowed = false
    · simp [hr]
    · simp [hr, h]

/-- C1 witness: the dedup gate evaluated on a ledger already holding
`jobX`. -/
theorem claim_C1_dedup_gate_witness :
    is_job_applied seededState.db "jobX" = true
  ∧ (apply_to_job seededState 0 "jobX" "Engineer" "Acme" 0 .success).trace.externalInvoked
      = false := by
  have h := (claim_C1_dedup_gate.1 seededState 0 "jobX" "Engineer" "Acme" 0 .success
    (by decide)).1
  exact ⟨by decide, h⟩

/-- C2: Idempotent record.  Recording the same URL twice, even with
different name/company arguments, is a no-op on the second call, leaves
exactly one stored record carrying the first call's fields, raises no
error on the repeated insert (the `E` variant returns normally), and the
membership check is true after either call; symmetrically for job
applications. -/
theorem claim_C2_idempotent_record
    (db : ActionDB) (url n₁ c₁ n₂ c₂ jt₁ jc₁ st₁ jt₂ jc₂ st₂ : String)
    (t₁ t₂ u₁ u₂ : ℤ) (m₁ m₂ : Bool)
    (hC : is_recruiter_contacted db url = false)
    (hJ : is_job_applied db url = false) :
    (record_recruiter_contact (record_recruiter_contact db url n₁ c₁ t₁ m₁) url n₂ c₂ t₂ m₂
        = record_recruiter_contact db url n₁ c₁ t₁ m₁)
  ∧ ((record_recruiter_contact db url n₁ c₁ t₁ m₁).contacted_recruiters.filter
        (fun c => c.recruiter_url = url) = [ContactRecord.mk url n₁ c₁ t₁ m₁])
  ∧ is_recruiter_contacted (record_recruiter_contact db url n₁ c₁ t₁ m₁) url = true
  ∧ is_recruiter_contacted
      (record_recruiter_contact (record_recruiter_contact db url n₁ c₁ t₁ m₁) url n₂ c₂ t₂ m₂)
      url = true
  ∧ (record_recruiter_contactE (record_recruiter_contact db url n₁ c₁ t₁ m₁) url n₂ c₂ t₂ m₂
        none none = .ok (record_recruiter_contact db url n₁ c₁ t₁ m₁))
  ∧ (record_job_application (record_job_application db url jt₁ jc₁ u₁ st₁) url jt₂ jc₂ u₂ st₂
        = record_job_application db url jt₁ jc₁ u₁ st₁)
  ∧ ((record_job_application db url jt₁ jc₁ u₁ st₁).applied_jobs.filter
        (fun a => a.job_url = url) = [ApplicationRecord.mk url jt₁ jc₁ u₁ st₁])
  ∧ is_job_applied (record_job_application db url jt₁ jc₁ u₁ st₁) url = true
  ∧ is_job_applied
      (record_job_application (record_job_application db url jt₁ jc₁ u₁ st₁) url jt₂ jc₂ u₂ st₂)
      url = true
  ∧ (record_job_applicationE (record_job_application db url jt₁ jc₁ u₁ st₁) url jt₂ jc₂ u₂ st₂
        none none = .ok (record_job_application db url jt₁ jc₁ u₁ st₁)) := by
  have h1 := record_contact_of_present
    (is_recruiter_contacted_record_self db url n₁ c₁ t₁ m₁) n₂ c₂ t₂ m₂
  have h6 := record_application_of_present
    (is_job_applied_record_self db url jt₁ jc₁ u₁ st₁) jt₂ jc₂ u₂ st₂
  refine ⟨h1, ?_, is_recruiter_contacted_record_self db url n₁ c₁ t₁ m₁,
    is_recruiter_contacted_record_self _ url n₂ c₂ t₂ m₂, congrArg Except.ok h1, h6, ?_,
    is_job_applied_record_self db url jt₁ jc₁ u₁ st₁,
    is_job_applied_record_self _ url jt₂ jc₂ u₂ st₂, congrArg Except.ok h6⟩
  · rw [record_contact_of_absent hC, List.filter_append, contacted_filter_eq_nil hC]
    simp
  · rw [record_application_of_absent hJ, List.filter_append, applied_filter_eq_nil hJ]
    simp

/-- C2 witness: the double record evaluated on the empty database. -/
theorem claim_C2_idempotent_record_witness :
    is_recruiter_contacted ActionDB.empty "u" = false
  ∧ is_job_applied ActionDB.empty "u" = false
  ∧ (record_recruiter_contact
      (record_recruiter_contact ActionDB.empty "u" "n1" "c1" 5 true) "u" "n2" "c2" 9 false
        = record_recruiter_contact ActionDB.empty "u" "n1" "c1" 5 true) :=
  ⟨by decide, by decide,
    (claim_C2_idempotent_record ActionDB.empty "u" "n1" "c1" "n2" "c2" "jt1" "jc1" "s1"
      "jt2" "jc2" "s2" 5 9 5 9 true false (by decide) (by decide)).1⟩

/-- C3 counterexample: the claim that `can_perform_action()` is never
invoked for an already-acted-upon target is false.  On a copilot whose
ledger already holds the target and whose rate limiter last acted at
time 0, the flow at time 0 still invokes the rate limiter first and
sleeps 300 seconds (the `min_delay` remainder) before the dedup check
aborts — for both `apply_to_job` and `send_recruiter_message`. -/
theorem claim_C3_counterexample :
    is_job_applied seededState.db "jobX" = true
  ∧ (apply_to_job seededState 0 "jobX" "Engineer" "Acme" 0 .success).trace.rateLimiterInvoked
      = true
  ∧ (apply_to_job seededState 0 "jobX" "Engineer" "Acme" 0 .success).trace.sleepTime = 300
  ∧ is_recruiter_contacted seededState.db "recX" = true
  ∧ (send_recruiter_message seededState 0 "recX" "Dana" "Acme" 0 .success).trace.rateLimiterInvoked
      = true
  ∧ (send_recruiter_message seededState 0 "recX" "Dana" "Acme" 0 .success).trace.sleepTime
      = 300 := by
  refine ⟨by decide, by decide, by decide, by decide, by decide, by decide⟩

/-- C3 (amended): when the target is already recorded in the ledger, the
flow aborts before the external action — returning False with no ledger
write and no rate-limiter record — but only after `can_perform_action()`
has executed (the source checks the rate limiter before the ledger), so
the call may block even for an already-acted-upon target; the dedup
short-circuit happens only when the rate check allows. -/
theorem claim_C3_step_ordering_amended :
    (∀ (c : CopilotState) (now : ℤ) (url ti co : String) (j : ℤ) (o : ActionOutcome),
      is_job_applied c.db url = true →
        ((apply_to_job c now url ti co j o).trace.rateLimiterInvoked = true
      ∧ (apply_to_job c now url ti co j o).result = false
      ∧ (apply_to_job c now url ti co j o).trace.externalInvoked = false
      ∧ (apply_to_job c now url ti co j o).state.db = c.db
      ∧ (apply_to_job c now url ti co j o).state.rl.last_action_time = c.rl.last_action_time
      ∧ (apply_to_job c now url ti co j o).trace.sleepTime
          = (c.rl.can_perform_action now).sleepTime
      ∧ ((apply_to_job c now url ti co j o).trace.rateAllowed = true →
          (apply_to_job c now url ti co j o).trace.dedupHit = true)))
  ∧ (∀ (c : CopilotState) (now : ℤ) (url n co : String) (j : ℤ) (o : ActionOutcome),
      is_recruiter_contacted c.db url = true →
        ((send_recruiter_message c now url n co j o).trace.rateLimiterInvoked = true
      ∧ (send_recruiter_message c now url n co j o).result = false
      ∧ (send_recruiter_message c now url n co j o).trace.externalInvoked = false
      ∧ (send_recruiter_message c now url n co j o).state.db = c.db
      ∧ (send_recruiter_message c now url n co j o).state.rl.last_action_time
          = c.rl.last_action_time
      ∧ (send_recruiter_message c now url n co j o).trace.sleepTime
          = (c.rl.can_perform_action now).sleepTime
      ∧ ((send_recruiter_message c now url n co j o).trace.rateAllowed = true →
          (send_recruiter_message c now url n co j o).trace.dedupHit = true))) := by
  constructor
  · intro c now url ti co j o h
    unfold apply_to_job
    by_cases hr : (c.rl.can_perform_action now).allowed = false
    · simp [hr, can_perform_action_state]
    · simp [hr, h, can_perform_action_state]
  · intro c now url n co j o h
    unfold send_recruiter_message
    by_cases hr : (c.rl.can_perform_action now).allowed = false
    · simp [hr, can_perform_action_state]
    · simp [hr, h, can_perform_action_state]

/-- C3 witness: the amended ordering property evaluated on the seeded
copilot. -/
theorem claim_C3_step_ordering_amended_witness :
    is_job_applied seededState.db "jobX" = true
  ∧ (apply_to_job seededState 0 "jobX" "Engineer" "Acme" 0 .success).result = false
  ∧ (apply_to_job seededState 0 "jobX" "Engineer" "Acme" 0 .success).state.db
      = seededState.db := by
  have h := claim_C3_step_ordering_amended.1 seededState 0 "jobX" "Engineer" "Acme" 0 .success
    (by decide)
  exact ⟨by decide, h.2.1, h.2.2.2.1⟩

/-- C4: Daily ceiling.  Whenever the pruned rolling window already holds
at least `max_actions_per_day` timestamps, `can_perform_action` returns
false with zero sleep; and in the scenario `max_actions_per_day = 2`,
`min_delay = 0`, three flows on distinct unseen targets succeed on calls
1 and 2 while call 3 is refused by the rate limiter with no record
created for target 3. -/
theorem claim_C4_daily_ceiling :
    (∀ (rl : RateLimiter) (now : ℤ),
      rl.max_actions_per_day ≤ (pruneWindow now rl.daily_actions).length →
      rl.can_perform_action now
        = ⟨false, 0, { rl with daily_actions := pruneWindow now rl.daily_actions }⟩)
  ∧ c4Run1.result = true
  ∧ c4Run2.result = true
  ∧ is_job_applied c4Run2.state.db "jobA" = true
  ∧ is_job_applied c4Run2.state.db "jobB" = true
  ∧ c4Run3.result = false
  ∧ c4Run3.trace.rateAllowed = false
  ∧ c4Run3.trace.sleepTime = 0
  ∧ c4Run3.trace.externalInvoked = false
  ∧ is_job_applied c4Run3.state.db "jobC" = false := by
  refine ⟨?_, by decide, by decide, by decide, by decide, by decide, by decide,
    by decide, by decide, by decide⟩
  intro rl now h
  unfold RateLimiter.can_perform_action
  simp [h]

/-- C4 witness: a full window of two timestamps refuses the third action
without sleeping. -/
theorem claim_C4_daily_ceiling_witness :
    (2 : Nat) ≤ (pruneWindow 20 ([0, 10] : List ℤ)).length
  ∧ RateLimiter.can_perform_action ⟨2, 0, 0, [0, 10], some 10⟩ 20
      = ⟨false, 0, ⟨2, 0, 0, [0, 10], some 10⟩⟩ := by
  have h := claim_C4_daily_ceiling.1 ⟨2, 0, 0, [0, 10], some 10⟩ 20 (by decide)
  exact ⟨by decide, by rw [h]; decide⟩

/-- C5: Minimum spacing.  Under the ceiling with a prior action whose
elapsed time is below `min_delay`, `can_perform_action` sleeps exactly
the remaining wait and returns true; with no prior action it returns
true immediately with zero sleep; and after any `record_action` at time
`t₁`, an allowed `can_perform_action` returns no earlier than
`t₁ + min_delay` (the return instant is `now` plus the slept time). -/
theorem claim_C5_minimum_spacing :
    (∀ (rl : RateLimiter) (now last : ℤ),
      (pruneWindow now rl.daily_actions).length < rl.max_actions_per_day →
      rl.last_action_time = some last →
      now - last < rl.min_delay →
      rl.can_perform_action now
        = ⟨true, rl.min_delay - (now - last),
            { rl with daily_actions := pruneWindow now rl.daily_actions }⟩)
  ∧ (∀ (rl : RateLimiter) (now : ℤ),
      (pruneWindow now rl.daily_actions).length < rl.max_actions_per_day →
      rl.last_action_time = none →
      rl.can_perform_action now
        = ⟨true, 0, { rl with daily_actions := pruneWindow now rl.daily_actions }⟩)
  ∧ (∀ (rl : RateLimiter) (t₁ jitter now : ℤ),
      ((rl.record_action t₁ jitter).can_perform_action now).allowed = true →
      t₁ + rl.min_delay
        ≤ now + ((rl.record_action t₁ jitter).can_perform_action now).sleepTime) := by
  refine ⟨?_, ?_, ?_⟩
  · intro rl now last hlen hlast hd
    unfold RateLimiter.can_perform_action
    simp [Nat.not_le.mpr hlen, hlast, hd]
  · intro rl now hlen hlast
    unfold RateLimiter.can_perform_action
    simp [Nat.not_le.mpr hlen, hlast]
  · intro rl t₁ j now hallow
    rw [can_perform_action_allowed] at hallow
    rw [can_perform_action_sleepTime]
    simp only [RateLimiter.record_action] at hallow ⊢
    simp only [decide_eq_true_eq] at hallow
    rw [if_neg (Nat.not_le.mpr hallow)]
    by_cases h2 : now - t₁ < rl.min_delay
    · simp [h2]
      omega
    · simp [h2]
      omega

/-- C5 witness: a limiter that acted at time 0 with `min_delay = 300`,
queried at time 100, sleeps exactly 200 seconds and allows. -/
theorem claim_C5_minimum_spacing_witness :
    (pruneWindow 100 (RateLimiter.daily_actions ⟨20, 300, 900, [0], some 0⟩)).length
        < RateLimiter.max_actions_per_day ⟨20, 300, 900, [0], some 0⟩
  ∧ RateLimiter.last_action_time ⟨20, 300, 900, [0], some 0⟩ = some 0
  ∧ (100 : ℤ) - 0 < RateLimiter.min_delay ⟨20, 300, 900, [0], some 0⟩
  ∧ RateLimiter.can_perform_action ⟨20, 300, 900, [0], some 0⟩ 100
      = ⟨true, 200, ⟨20, 300, 900, [0], some 0⟩⟩ := by
  have h := claim_C5_minimum_spacing.1 ⟨20, 300, 900, [0], some 0⟩ 100 0
    (by decide) (by decide) (by decide)
  exact ⟨by decide, by decide, by decide, by rw [h]; decide⟩

/-- C6 counterexample: the claim fails on the code in two ways shown at
one concrete input.  When the external callable reports failure
(returns False), no log entry of any kind is appended — neither to the
safety logger nor to the ledger's `action_log` — contradicting "a
GenericLogEntry with status error ... is appended"; and when the
callable raises, the flow returns the ordinary value False (the
exception is caught by the `except` block) and still appends nothing to
the ledger's `action_log` table, so the error is not surfaced to the
caller as the claim states. -/
theorem claim_C6_counterexample :
    (apply_to_job freshState 0 "jobY" "Engineer" "Acme" 0 .failure).trace.externalInvoked = true
  ∧ (apply_to_job freshState 0 "jobY" "Engineer" "Acme" 0 .failure).state.safetyLog = []
  ∧ (apply_to_job freshState 0 "jobY" "Engineer" "Acme" 0 .failure).state.db.action_log = []
  ∧ (apply_to_job freshState 0 "jobY" "Engineer" "Acme" 0 .failure).result = false
  ∧ (apply_to_job freshState 0 "jobY" "Engineer" "Acme" 0 (.raised "boom")).state.db.action_log
      = []
  ∧ (apply_to_job freshState 0 "jobY" "Engineer" "Acme" 0 (.raised "boom")).result = false := by
  refine ⟨by decide, by decide, by decide, by decide, by decide, by decide⟩

/-- C6 (amended): if the external callable raises, no ContactRecord or
ApplicationRecord is written, the rate limiter records no action, and an
entry with status "error" carrying the failure detail is appended to the
safety logger's detailed log (not to the ledger's `action_log` table);
the flow catches the exception and returns False rather than propagating
it.  If the callable reports failure by returning False, nothing is
written at all — no record, no rate-limiter action and no error log
entry — and the flow returns False. -/
theorem claim_C6_no_write_on_failure_amended :
    (∀ (c : CopilotState) (now : ℤ) (url ti co : String) (j : ℤ) (msg : String),
      (apply_to_job c now url ti co j (.raised msg)).trace.externalInvoked = true →
        ((apply_to_job c now url ti co j (.raised msg)).result = false
      ∧ (apply_to_job c now url ti co j (.raised msg)).state.db = c.db
      ∧ (apply_to_job c now url ti co j (.raised msg)).state.rl.last_action_time
          = c.rl.last_action_time
      ∧ (apply_to_job c now url ti co j (.raised msg)).state.safetyLog
          = c.safetyLog ++ [SafetyLogEntry.mk "error" "error" msg]))
  ∧ (∀ (c : CopilotState) (now : ℤ) (url ti co : String) (j : ℤ),
      (apply_to_job c now url ti co j .failure).trace.externalInvoked = true →
        ((apply_to_job c now url ti co j .failure).result = false
      ∧ (apply_to_job c now url ti co j .failure).state.db = c.db
      ∧ (apply_to_job c now url ti co j .failure).state.rl.last_action_time
          = c.rl.last_action_time
      ∧ (apply_to_job c now url ti co j .failure).state.safetyLog = c.safetyLog))
  ∧ (∀ (c : CopilotState) (now : ℤ) (url n co : String) (j : ℤ) (msg : String),
      (send_recruiter_message c now url n co j (.raised msg)).trace.externalInvoked = true →
        ((send_recruiter_message c now url n co j (.raised msg)).result = false
      ∧ (send_recruiter_message c now url n co j (.raised msg)).state.db = c.db
      ∧ (send_recruiter_message c now url n co j (.raised msg)).state.rl.last_action_time
          = c.rl.last_action_time
      ∧ (send_recruiter_message c now url n co j (.raised msg)).state.safetyLog
          = c.safetyLog ++ [SafetyLogEntry.mk "error" "error" msg]))
  ∧ (∀ (c : CopilotState) (now : ℤ) (url n co : String) (j : ℤ),
      (send_recruiter_message c now url n co j .failure).trace.externalInvoked = true →
        ((send_recruiter_message c now url n co j .failure).result = false
      ∧ (send_recruiter_message c now url n co j .failure).state.db = c.db
      ∧ (send_recruiter_message c now url n co j .failure).state.rl.last_action_time
          = c.rl.last_action_time
      ∧ (send_recruiter_message c now url n co j .failure).state.safetyLog
          = c.safetyLog)) := by
  refine ⟨?_, ?_, ?_, ?_⟩
  all_goals intro c now url x co j
  case _ =>
    intro msg hext
    unfold apply_to_job at *
    by_cases hr : (c.rl.can_perform_action now).allowed = false
    · simp [hr] at hext
    · by_cases hd : is_job_applied c.db url = true
      · simp [hr, hd] at hext
      · simp only [Bool.not_eq_true] at hd
        simp [hr, hd, can_perform_action_state]
  case _ =>
    intro hext
    unfold apply_to_job at *
    by_cases hr : (c.rl.can_perform_action now).allowed = false
    · simp [hr] at hext
    · by_cases hd : is_job_applied c.db url = true
      · simp [hr, hd] at hext
      · simp only [Bool.not_eq_true] at hd
        simp [hr, hd, can_perform_action_state]
  case _ =>
    intro msg hext
    unfold send_recruiter_message at *
    by_cases hr : (c.rl.can_perform_action now).allowed = false
    · simp [hr] at hext
    · by_cases hd : is_recruiter_contacted c.db url = true
      · simp [hr, hd] at hext
      · simp only [Bool.not_eq_true] at hd
        simp [hr, hd, can_perform_action_state]
  case _ =>
    intro hext
    unfold send_recruiter_message at *
    by_cases hr : (c.rl.can_perform_action now).allowed = false
    · simp [hr] at hext
    · by_cases hd : is_recruiter_contacted c.db url = true
      · simp [hr, hd] at hext
      · simp only [Bool.not_eq_true] at hd
        simp [hr, hd, can_perform_action_state]

/-- C6 witness: the amended property evaluated on a fresh copilot whose
callable raises. -/
theorem claim_C6_no_write_on_failure_amended_witness :
    (apply_to_job freshState 0 "jobY" "Engineer" "Acme" 0 (.raised "boom")).trace.externalInvoked
      = true
  ∧ (apply_to_job freshState 0 "jobY" "Engineer" "Acme" 0 (.raised "boom")).state.safetyLog
      = [SafetyLogEntry.mk "error" "error" "boom"] := by
  have h := (claim_C6_no_write_on_failure_amended.1 freshState 0 "jobY" "Engineer" "Acme" 0
    "boom" (by decide)).2.2.2
  exact ⟨by decide, by simpa using h⟩

/-- C7: Rolling-window eviction.  A timestamp strictly older than 24
hours (86400 s) is absent from the pruned window; `can_perform_action`
reassigns exactly the pruned window, refuses precisely when the pruned
count reaches the ceiling, and `get_daily_stats` counts exactly the
pruned window. -/
theorem claim_C7_window_eviction :
    ∀ (rl : RateLimiter) (now t : ℤ), 86400 < now - t →
      (t ∉ pruneWindow now rl.daily_actions)
    ∧ ((rl.can_perform_action now).state.daily_actions = pruneWindow now rl.daily_actions)
    ∧ ((rl.can_perform_action now).allowed = false
        ↔ rl.max_actions_per_day ≤ (pruneWindow now rl.daily_actions).length)
    ∧ ((rl.get_daily_stats now).actions_today = (pruneWindow now rl.daily_actions).length) := by
  intro rl now t h
  refine ⟨?_, ?_, ?_, rfl⟩
  · simp only [pruneWindow, List.mem_filter, decide_eq_true_eq, not_and]
    intro _
    omega
  · rw [can_perform_action_state]
  · rw [can_perform_action_allowed]
    simp [Nat.not_lt]

/-- C7 witness: the eviction property evaluated on a window holding one
fresh and one stale timestamp. -/
theorem claim_C7_window_eviction_witness :
    (86400 : ℤ) < 100000 - 0
  ∧ ((0 : ℤ) ∉ pruneWindow 100000
      (RateLimiter.daily_actions ⟨20, 300, 900, [0, 99999], some 99999⟩))
  ∧ (RateLimiter.get_daily_stats ⟨20, 300, 900, [0, 99999], some 99999⟩ 100000).actions_today
      = (pruneWindow 100000
          (RateLimiter.daily_actions ⟨20, 300, 900, [0, 99999], some 99999⟩)).length := by
  have h := claim_C7_window_eviction ⟨20, 300, 900, [0, 99999], some 99999⟩ 100000 0 (by decide)
  exact ⟨by decide, h.1, h.2.2.2⟩

/-- C8: `record_action` appends the current time to the rolling window
and sets `last_action_time` to that same time; its result does not
depend on the jittered value, the decision and sleep of
`can_perform_action` do not depend on `max_delay` (the top of the jitter
range), and the wait enforced by the next check is derived solely from
`min_delay` relative to `last_action_time`. -/
theorem claim_C8_record_action :
    ∀ (rl : RateLimiter) (now j₁ j₂ d now' : ℤ),
      (rl.record_action now j₁ = rl.record_action now j₂)
    ∧ ((rl.record_action now j₁).daily_actions = rl.daily_actions ++ [now])
    ∧ ((rl.record_action now j₁).last_action_time = some now)
    ∧ ((({ rl with max_delay := d } : RateLimiter).can_perform_action now').allowed
        = (rl.can_perform_action now').allowed)
    ∧ ((({ rl with max_delay := d } : RateLimiter).can_perform_action now').sleepTime
        = (rl.can_perform_action now').sleepTime)
    ∧ ((pruneWindow now' (rl.record_action now j₁).daily_actions).length
          < rl.max_actions_per_day →
        ((rl.record_action now j₁).can_perform_action now').sleepTime
          = if now' - now < rl.min_delay then rl.min_delay - (now' - now) else 0) := by
  intro rl now j₁ j₂ d now'
  refine ⟨rfl, rfl, rfl, ?_, ?_, ?_⟩
  · rw [can_perform_action_allowed, can_perform_action_allowed]
  · rw [can_perform_action_sleepTime, can_perform_action_sleepTime]
  · intro hlen
    rw [can_perform_action_sleepTime]
    simp only [RateLimiter.record_action] at hlen ⊢
    rw [if_neg (Nat.not_le.mpr hlen)]

/-- C8 witness: after recording at time 0 with jitter 555, the check at
time 100 sleeps by the `min_delay` formula. -/
theorem claim_C8_record_action_witness :
    (pruneWindow 100 (RateLimiter.daily_actions
        (RateLimiter.record_action ⟨20, 300, 900, [], none⟩ 0 555))).length
      < RateLimiter.max_actions_per_day ⟨20, 300, 900, [], none⟩
  ∧ ((RateLimiter.record_action ⟨20, 300, 900, [], none⟩ 0 555).can_perform_action 100).sleepTime
      = if (100 : ℤ) - 0 < RateLimiter.min_delay ⟨20, 300, 900, [], none⟩
        then RateLimiter.min_delay ⟨20, 300, 900, [], none⟩ - (100 - 0) else 0 := by
  have h := (claim_C8_record_action ⟨20, 300, 900, [], none⟩ 0 555 777 900 100).2.2.2.2.2
  exact ⟨by decide, h (by decide)⟩

/-- C9: Daily summary.  `get_daily_summary` returns the given calendar
date, the counts of contact and application records whose timestamps
truncate to that date, and at most 50 generic log entries, each of that
date and drawn from the action log, ordered newest-first. -/
theorem claim_C9_daily_summary :
    ∀ (db : ActionDB) (d : Int),
      ((get_daily_summary db d).date = d)
    ∧ ((get_daily_summary db d).recruiters_contacted
        = db.contacted_recruiters.countP (fun c => dateOf c.contacted_at = d))
    ∧ ((get_daily_summary db d).jobs_applied
        = db.applied_jobs.countP (fun a => dateOf a.applied_at = d))
    ∧ ((get_daily_summary db d).recent_actions.length ≤ 50)
    ∧ (∀ e ∈ (get_daily_summary db d).recent_actions,
        dateOf e.timestamp = d ∧ e ∈ db.action_log)
    ∧ ((get_daily_summary db d).recent_actions.Pairwise newestFirst) := by
  intro db d
  refine ⟨rfl, ?_, ?_, ?_, ?_, ?_⟩
  · simp [get_daily_summary, List.countP_eq_length_filter]
  · simp [get_daily_summary, List.countP_eq_length_filter]
  · simp [get_daily_summary, List.length_take]
  · intro e he
    simp only [get_daily_summary] at he
    have h1 : e ∈ List.insertionSort newestFirst
        (db.action_log.filter fun x => dateOf x.timestamp = d) :=
      List.mem_of_mem_take he
    rw [List.mem_insertionSort] at h1
    have h2 := List.mem_filter.mp h1
    exact ⟨by simpa using h2.2, h2.1⟩
  · have hs : (List.insertionSort newestFirst
        (db.action_log.filter fun x => dateOf x.timestamp = d)).Pairwise newestFirst :=
      List.sorted_insertionSort newestFirst _
    exact hs.sublist (List.take_sublist _ _)

/-- C9 witness: a concrete entry of day 0 appears in the summary with
its date. -/
theorem claim_C9_daily_summary_witness :
    logEntryB ∈ (get_daily_summary logDb 0).recent_actions
  ∧ dateOf logEntryB.timestamp = 0
  ∧ logEntryB ∈ logDb.action_log := by
  have h := (claim_C9_daily_summary logDb 0).2.2.2.2.1 logEntryB (by decide)
  exact ⟨by decide, h.1, h.2⟩

/-- C10 counterexample: the claim that `record_recruiter_contact`,
`record_job_application` and `log_action` "catch and swallow every
storage exception and never raise" is false.  `sqlite3.connect` and
`conn.cursor()` run before the `try` in all three methods
(action_tracker.py lines 83-84, 118-119, 138-139), so a connection-time
storage exception propagates out of each of them, shown here at
concrete inputs. -/
theorem claim_C10_counterexample :
    record_recruiter_contactE ActionDB.empty "u" "n" "c" 0 true
        (some "unable to open database file") none
      = .error "unable to open database file"
  ∧ record_job_applicationE ActionDB.empty "u" "t" "c" 0 "pending"
        (some "unable to open database file") none
      = .error "unable to open database file"
  ∧ log_actionE ActionDB.empty "apply_job" "u" "n" 0 "success" none
        (some "unable to open database file") none
      = .error "unable to open database file" := by
  refine ⟨rfl, rfl, rfl⟩

/-- C10 (amended): the dedup checks `is_recruiter_contacted` /
`is_job_applied` propagate any storage exception — connection-time or
query-time — to the caller; the write methods
`record_recruiter_contact`, `record_job_application` and `log_action`
propagate connection-time exceptions (the connection is opened outside
the `try`), but catch and swallow every exception of the guarded
`execute`/`commit` and return normally with the database unchanged — so
a successfully performed action whose guarded ledger insert fails is
silently left unrecorded: the later healthy check still answers
false. -/
theorem claim_C10_storage_failure_asymmetry_amended :
    (∀ db url e ee, is_recruiter_contactedE db url (some e) ee = .error e)
  ∧ (∀ db url e, is_recruiter_contactedE db url none (some e) = .error e)
  ∧ (∀ db url e ee, is_job_appliedE db url (some e) ee = .error e)
  ∧ (∀ db url e, is_job_appliedE db url none (some e) = .error e)
  ∧ (∀ db url n c t m e ee,
      record_recruiter_contactE db url n c t m (some e) ee = .error e)
  ∧ (∀ db url n c t m e,
      record_recruiter_contactE db url n c t m none (some e) = .ok db)
  ∧ (∀ db url ti c t st e ee,
      record_job_applicationE db url ti c t st (some e) ee = .error e)
  ∧ (∀ db url ti c t st e,
      record_job_applicationE db url ti c t st none (some e) = .ok db)
  ∧ (∀ db a u n t st d e ee, log_actionE db a u n t st d (some e) ee = .error e)
  ∧ (∀ db a u n t st d e, log_actionE db a u n t st d none (some e) = .ok db)
  ∧ (∀ db url n c t m e, is_recruiter_contacted db url = false →
      (record_recruiter_contactE db url n c t m none (some e) = .ok db
        ∧ is_recruiter_contactedE db url none none = .ok false))
  ∧ (∀ db url ti c t st e, is_job_applied db url = false →
      (record_job_applicationE db url ti c t st none (some e) = .ok db
        ∧ is_job_appliedE db url none none = .ok false)) := by
  refine ⟨fun _ _ _ _ => rfl, fun _ _ _ => rfl, fun _ _ _ _ => rfl, fun _ _ _ => rfl,
    fun _ _ _ _ _ _ _ _ => rfl, fun _ _ _ _ _ _ _ => rfl,
    fun _ _ _ _ _ _ _ _ => rfl, fun _ _ _ _ _ _ _ => rfl,
    fun _ _ _ _ _ _ _ _ _ => rfl, fun _ _ _ _ _ _ _ _ => rfl, ?_, ?_⟩
  · intro db url n c t m e h
    exact ⟨rfl, by simp [is_recruiter_contactedE, h]⟩
  · intro db url ti c t st e h
    exact ⟨rfl, by simp [is_job_appliedE, h]⟩

/-- C10 witness: on the empty database a guarded-insert failure returns
normally with the database unchanged, and the later healthy check still
answers false. -/
theorem claim_C10_storage_failure_asymmetry_amended_witness :
    is_recruiter_contacted ActionDB.empty "u" = false
  ∧ record_recruiter_contactE ActionDB.empty "u" "n" "c" 0 true none (some "db locked")
      = .ok ActionDB.empty
  ∧ is_recruiter_contactedE ActionDB.empty "u" none none = .ok false := by
  have h := claim_C10_storage_failure_asymmetry_amended.2.2.2.2.2.2.2.2.2.2.1
    ActionDB.empty "u" "n" "c" 0 true "db locked" (by decide)
  exact ⟨by decide, h.1, h.2⟩

end Copilot
